import Mathlib

/-!
Shallow embedding of the Beko weekly-report enricher (src/beko.py) and proofs
about its normalizers, field derivers, override rule, schema projection and
summary counters.

Cell values of the source spreadsheet are modelled by the inductive `Val`:
Python's missing markers (None / float NaN / pandas NaT) collapse into
`Val.missing` (exactly the values `pd.isna` recognises), Python `bool`,
`int` / `np.integer`, `float` (modelled as an exact rational; binary
floating-point rounding is not modelled, no claim depends on it), `str`,
and pandas `Timestamp` (modelled date-only, since no transformation in the
program observes the time-of-day of a timestamp).

String primitives of Python (`str.strip`, `str.upper`, `str.split`) are
re-implemented over `List Char` so that every definition evaluates inside
the kernel.
-/

/-- A calendar date (proleptic Gregorian), date-only. -/
structure Date where
  year : Nat
  month : Nat
  day : Nat
deriving DecidableEq, Repr

/-- A raw spreadsheet cell value, as seen by the Python code. -/
inductive Val where
  | missing
  | bool (b : Bool)
  | int (n : Int)
  | float (q : Rat)
  | str (s : String)
  | date (d : Date)
deriving DecidableEq, Repr

/-- Characters stripped by Python `str.strip()` (the ASCII whitespace the
inputs of this pipeline can contain). -/
def isPyWhitespace (c : Char) : Bool :=
  c = ' ' || c = '\t' || c = '\n' || c = '\r'

/-- Python `str.strip()`: remove leading and trailing whitespace. -/
def pyStrip (s : String) : String :=
  ⟨((s.data.dropWhile isPyWhitespace).reverse.dropWhile isPyWhitespace).reverse⟩

/-- Python `str.upper()` on the ASCII strings this pipeline compares. -/
def pyUpper (s : String) : String :=
  ⟨s.data.map Char.toUpper⟩

/-- Value of a digit character. -/
def digitVal (c : Char) : Nat := c.toNat - '0'.toNat

/-- Natural number denoted by a digit list (most significant first). -/
def natOfDigits (l : List Char) : Nat :=
  l.foldl (fun n c => n * 10 + digitVal c) 0

/-- Decimal digit string rendering of a `Nat` (via `toString`). -/
def natRepr (n : Nat) : String := toString n

/-- Python `str(int)`: decimal rendering of an `Int`. -/
def intRepr (n : Int) : String := toString n

/-- Models Python `str()` on a `Timestamp`; the exact shape is immaterial to
every claim (it is never a boolean token and never empty). -/
def dateRepr (d : Date) : String :=
  natRepr d.year ++ "-" ++ natRepr d.month ++ "-" ++ natRepr d.day

/-- Models Python `str()` on a non-integral `float`; the exact digits are
immaterial to every claim (the result contains a fraction separator and is
never a boolean token). -/
def floatRepr (q : Rat) : String :=
  intRepr q.num ++ "/" ++ natRepr q.den

/-- `to_str` (src/beko.py:15-22). `pd.isna` → `""`; Python `bool` is a
subtype of `int`, so the `isinstance(x, (int, np.integer))` branch renders
`True`/`False` as `"1"`/`"0"`; integral floats lose their trailing `.0`;
everything else is `str(x).strip()`. -/
def to_str : Val → String
  | .missing => ""
  | .bool b => if b then "1" else "0"
  | .int n => intRepr n
  | .float q => if q.den = 1 then intRepr q.num else pyStrip (floatRepr q)
  | .str s => pyStrip s
  | .date d => pyStrip (dateRepr d)

/-- All characters are decimal digits. -/
def allDigits (l : List Char) : Bool := l.all Char.isDigit

/-- Split a character list at the first occurrence of character `sep`
(at most once): models `str.split(sep, 1)`-style use. Returns the parts
separated by every occurrence, like Python `str.split(sep)`. -/
def splitOnChar (sep : Char) : List Char → List (List Char)
  | [] => [[]]
  | c :: rest =>
    if c = sep then [] :: splitOnChar sep rest
    else
      match splitOnChar sep rest with
      | [] => [[c]]
      | h :: t => (c :: h) :: t

/-- Python `s.split("...")`: split at each occurrence of the literal
three-dot separator, leftmost first (src/beko.py:101 only uses index 0). -/
def splitOnDots : List Char → List (List Char)
  | '.' :: '.' :: '.' :: rest => [] :: splitOnDots rest
  | c :: rest =>
    match splitOnDots rest with
    | [] => [[c]]
    | h :: t => (c :: h) :: t
  | [] => [[]]

/-- Modelled Python primitive `float(s)` on strings, restricted to the
decimal literals this pipeline can meet: optional sign, digits with at most
one point, at least one digit; whitespace tolerated at both ends.
Exponent/inf/nan forms are not modelled (no claim depends on them).
Returns the exact rational value. -/
def parseDecimal? (s : String) : Option Rat :=
  let l := (pyStrip s).data
  let (sign, body) : Int × List Char :=
    match l with
    | '-' :: rest => (-1, rest)
    | '+' :: rest => (1, rest)
    | _ => (1, l)
  match splitOnChar '.' body with
  | [a] =>
    if a ≠ [] ∧ allDigits a then some ((sign * natOfDigits a : Int) : Rat)
    else none
  | [a, b] =>
    if (a ≠ [] ∨ b ≠ []) ∧ allDigits a ∧ allDigits b then
      some (Rat.divInt (sign * (natOfDigits a * 10 ^ b.length + natOfDigits b)) (10 ^ b.length))
    else none
  | _ => none

/-- Modelled Python primitive `float(val)` on an arbitrary cell value:
booleans are the integers 0/1, numbers are themselves, strings are parsed,
and a `Timestamp` raises `TypeError` (hence `none`, caught by the caller's
`except`). -/
def pyFloat? : Val → Option Rat
  | .missing => none
  | .bool b => some (if b then 1 else 0)
  | .int n => some (n : Rat)
  | .float q => some q
  | .str s => parseDecimal? s
  | .date _ => none

/-- Python `int()` on a float: truncation toward zero. -/
def pyTruncRat (q : Rat) : Int := q.num.tdiv (q.den : Int)

/-- `to_numeric` (src/beko.py:24-31): `int(float(val))` where possible,
else the absent marker (`np.nan`, modelled as `none`). -/
def to_numeric (v : Val) : Option Int :=
  if v = .missing then none
  else (pyFloat? v).map pyTruncRat

/-- Gregorian leap-year rule. -/
def isLeap (y : Nat) : Bool :=
  (y % 4 = 0 && y % 100 ≠ 0) || y % 400 = 0

/-- Number of days in a month. -/
def daysInMonth (y m : Nat) : Nat :=
  if m = 2 then (if isLeap y then 29 else 28)
  else if m = 4 ∨ m = 6 ∨ m = 9 ∨ m = 11 then 30
  else 31

/-- A calendar-valid date (the parser only produces these). -/
def validDate (d : Date) : Bool :=
  1 ≤ d.month && d.month ≤ 12 && 1 ≤ d.day && d.day ≤ daysInMonth d.year d.month
    && 1 ≤ d.year

/-- Check a `HH:MM:SS[.frac]` time-of-day field (pandas rejects out-of-range
components with `errors="coerce"`). -/
def validTimeChars (l : List Char) : Bool :=
  match splitOnChar ':' l with
  | [h, m, s] =>
    let (sec, frac) : List Char × List Char :=
      match splitOnChar '.' s with
      | [a] => (a, ['0'])
      | [a, b] => (a, b)
      | _ => ([], [])
    h ≠ [] && m ≠ [] && sec ≠ [] && frac ≠ []
      && allDigits h && allDigits m && allDigits sec && allDigits frac
      && natOfDigits h < 24 && natOfDigits m < 60 && natOfDigits sec < 60
  | _ => false

/-- Modelled pandas primitive: `pd.to_datetime(s, errors="coerce")` on the
string timestamps this pipeline meets, shaped `YYYY-MM-DD` optionally
followed by a space and `HH:MM:SS[.frac]` time-of-day (the shape shown in
the source's own docstring examples). The time-of-day is validated and then
dropped, since no transformation of the program observes it. Any other
shape coerces to NaT (`none`). -/
def parseDate? (s : String) : Option Date :=
  let parts := splitOnChar ' ' s.data
  let dateOk : List Char → Option Date := fun dl =>
    match splitOnChar '-' dl with
    | [y, m, d] =>
      if y ≠ [] ∧ m ≠ [] ∧ d ≠ [] ∧ allDigits y ∧ allDigits m ∧ allDigits d then
        let dt : Date := ⟨natOfDigits y, natOfDigits m, natOfDigits d⟩
        if validDate dt then some dt else none
      else none
    | _ => none
  match parts with
  | [dl] => dateOk dl
  | [dl, tl] => if validTimeChars tl then dateOk dl else none
  | _ => none

/-- Modelled pandas primitive `pd.to_datetime(val, errors="coerce")` on a
cell value: a `Timestamp` is itself, a string is parsed, and the remaining
kinds coerce to NaT here (the numeric epoch-offset interpretation pandas
would give an `int`/`float` is not modelled: no claim feeds a number to a
date position). -/
def pd_to_datetime : Val → Option Date
  | .missing => none
  | .str s => parseDate? s
  | .date d => some d
  | _ => none

/-- `to_mmddyyyy` (src/beko.py:33-38): missing → NaT, else coerce to a
timestamp and normalize to the date (`d.normalize()` zeroes the time-of-day,
which the model already drops). -/
def to_mmddyyyy (v : Val) : Option Date :=
  if v = .missing then none
  else pd_to_datetime v

/-- `normalize_bool_to_01` (src/beko.py:40-51): missing → NaN; native bool
→ 1/0; else case-insensitive token match, anything else → NaN. -/
def normalize_bool_to_01 (v : Val) : Option Int :=
  if v = .missing then none
  else
    match v with
    | .bool b => some (if b then 1 else 0)
    | _ =>
      let s := pyUpper (to_str v)
      if s = "TRUE" ∨ s = "T" ∨ s = "YES" ∨ s = "Y" ∨ s = "1" then some 1
      else if s = "FALSE" ∨ s = "F" ∨ s = "NO" ∨ s = "N" ∨ s = "0" then some 0
      else none

/-- `derive_shipment_id` (src/beko.py:53-57). -/
def derive_shipment_id (order_number bill_of_lading : Val) : String :=
  let o := to_str order_number
  let bol := to_str bill_of_lading
  if o ≠ "" then o else bol

/-- `derive_tracked_shipments` (src/beko.py:59-90). The first argument is
the `IsTracked` cell produced by `normalize_bool_to_01` upstream: NaN is
`none`, and `int(is_tracked_01)` is the wrapped integer. -/
def derive_tracked_shipments (is_tracked_01 : Option Int) (tracking_type : Val) : String :=
  let tt := pyUpper (to_str tracking_type)
  let it := is_tracked_01
  if tt = "ELD" ∨ tt = "APP" ∨ tt = "DIRECT" then
    if it = some 1 then "Tracked"
    else if it = some 0 then "Untracked"
    else ""
  else if tt = "UNKNOWN" then
    if it = some 1 then "YMS Milestone"
    else if it = some 0 then "Untracked"
    else ""
  else
    if it = some 1 then "Tracked"
    else if it = some 0 then "Untracked"
    else ""

/-- `first_datetime_from_window` (src/beko.py:92-102): normalize to string,
empty → NaT, else parse the part left of the literal `...` separator. -/
def first_datetime_from_window (v : Val) : Option Date :=
  let s := to_str v
  if s = "" then none
  else pd_to_datetime (.str (pyStrip ⟨(splitOnDots s.data).headD []⟩))

/-- Days in the years before year `y` (proleptic Gregorian, year ≥ 1). -/
def daysBeforeYear (y : Nat) : Nat :=
  (y - 1) * 365 + (y - 1) / 4 + (y - 1) / 400 - (y - 1) / 100

/-- One-based ordinal of the date within its year. -/
def dayOfYear (d : Date) : Nat :=
  (List.range (d.month - 1)).foldl (fun acc i => acc + daysInMonth d.year (i + 1)) 0 + d.day

/-- One-based day number of the date counted from 0001-01-01. -/
def dayNumber (d : Date) : Nat :=
  daysBeforeYear d.year + dayOfYear d

/-- ISO weekday: Monday = 1 … Sunday = 7 (0001-01-01 was a Monday in the
proleptic Gregorian calendar). -/
def isoWeekday (d : Date) : Nat :=
  (dayNumber d - 1) % 7 + 1

/-- Number of ISO weeks in year `y`: 53 when Jan 1 falls on a Thursday, or
on a Wednesday of a leap year; else 52. -/
def weeksInYear (y : Nat) : Nat :=
  let jan1 := isoWeekday ⟨y, 1, 1⟩
  if jan1 = 4 ∨ (isLeap y ∧ jan1 = 3) then 53 else 52

/-- ISO-8601 week number of a date, as computed by
`Timestamp.isocalendar().week`. -/
def isoWeekNum (d : Date) : Nat :=
  let wk := (dayOfYear d + 10 - isoWeekday d) / 7
  if wk = 0 then weeksInYear (d.year - 1)
  else if wk > weeksInYear d.year then 1
  else wk

/-- Two-digit zero padding, as in the format string `f"Week {wk:02d}"`. -/
def pad2 (n : Nat) : String :=
  if n < 10 then "0" ++ natRepr n else natRepr n

/-- `iso_week_label` (src/beko.py:104-116): missing → `""`; coerce to a
timestamp, unparsable → `""`; else `"Week "` plus the zero-padded ISO week
number. -/
def iso_week_label (v : Val) : String :=
  if v = .missing then ""
  else
    match pd_to_datetime v with
    | none => ""
    | some d => "Week " ++ pad2 (isoWeekNum d)

/-- A table row: an association list from column name to cell value (first
occurrence of a key is the cell; the pipeline never creates duplicates). -/
def Record := List (String × Val)

/-- Cell of a record at a column, `missing` when the column is absent. -/
def getCell (r : Record) (c : String) : Val :=
  match r.find? (fun p => p.1 == c) with
  | some p => p.2
  | none => .missing

/-- Cell of a record at a column with an explicit default for an absent
column. -/
def getCellD (r : Record) (c : String) (dflt : Val) : Val :=
  match r.find? (fun p => p.1 == c) with
  | some p => p.2
  | none => dflt

/-- The row predicate `mask_tracked_like` (src/beko.py:183):
`df["Tracked Shipments"].isin(["Tracked", "YMS Milestone"])` on one cell. -/
def mask_tracked_like (tracked_shipments : String) : Bool :=
  tracked_shipments == "Tracked" || tracked_shipments == "YMS Milestone"

/-- The `Tracking Error` update (src/beko.py:181-184) on one record: when
the record's classification is tracked-like the field is forced to
`"Tracked"`, else the prior value (the column default `""` when it did not
exist) is kept. -/
def tracking_error_update (tracked_shipments prior_tracking_error : String) : String :=
  if mask_tracked_like tracked_shipments then "Tracked" else prior_tracking_error

/-- `desired_cols` (src/beko.py:191-210), the fixed output schema. -/
def desired_cols : List String :=
  ["Sl. No", "Tenant Name", "Tenant ID", "Carrier Name", "P44 CARRIER ID", "P44 Shipment ID",
   "Bill of Lading", "Order Number", "Shipment ID", "IsTracked", "Tracked Shipments",
   "Tracking Type", "Tracking field", "Tracking Method", "Active Equipment ID", "Historical Equipment ID",
   "Pickup Name", "Pickup City State", "Pickup Country", "Pickup Region", "Week",
   "Pickup Appointement Window (UTC)",
   "Final Destination Name", "Final Destination City State", "Final Destination Country",
   "Delivery Appointement Window (UTC)",
   "Shipment Created (UTC)", "Tracking Window Start (UTC)", "Tracking Window End (UTC)",
   "Pickup Arrival Milestone (UTC)", "Pickup Departure Milestone (UTC)",
   "Final Destination Arrival Milestone (UTC)", "Final Destination Departure Milestone (UTC)",
   "# Of Milestones received / # Of Milestones expected",
   "# Updates Received", "# Updates Received < 10 mins",
   "Nb Intervals Expected", "Nb Intervals Observed",
   "Final Status Reason", "Tracking Error",
   "Milestone Error 1", "Milestone Error 2", "Milestone Error 3",
   "Attr1 Value", "Attr2 Name", "Attr2 Value", "Attr3 Name", "Attr3 Value",
   "Attr4 Name", "Attr4 Value", "Attr5 Name", "Attr5 Value",
   "Average Latency (min)"]

/-- Schema projection (src/beko.py:213-217) on one record: synthesize every
column of `cols` absent from the record as the empty string, then restrict
and reorder to exactly `cols` (`out_df = df[desired_cols]`). -/
def project (cols : List String) (r : Record) : Record :=
  cols.map (fun c => (c, getCellD r c (.str "")))

/-- Count of output rows whose `Week` cell normalizes to the empty string
(src/beko.py:230). -/
def blank_week_count (out : List Record) : Nat :=
  (out.filter (fun r => to_str (getCell r "Week") == "")).length

/-- Count of rows satisfying `mask_tracked_like` (src/beko.py:231); the
`Tracked Shipments` cells are the strings produced by
`derive_tracked_shipments`, and projection preserves them. -/
def tracked_like_count (out : List Record) : Nat :=
  (out.filter (fun r =>
    match getCell r "Tracked Shipments" with
    | .str s => mask_tracked_like s
    | _ => false)).length

/-- Count of rows whose root-cause field (`Tracking Error`) normalizes to
the empty string; defined for comparison with the reported counters, the
code itself never computes it. -/
def blank_rca_count (out : List Record) : Nat :=
  (out.filter (fun r => to_str (getCell r "Tracking Error") == "")).length

/-- The two labelled numbers written by the Quick checks section
(src/beko.py:229-231). -/
def quick_checks_summary (out : List Record) : List (String × Nat) :=
  [("Rows with Week blank", blank_week_count out),
   ("Rows where Tracking Error forced to Tracked", tracked_like_count out)]

/-- Claim C1: the Tracked Shipments classification follows the decision
table: with the tracking type upper-cased, ELD/APP/DIRECT maps tracked=1 to
"Tracked" and tracked=0 to "Untracked"; UNKNOWN maps tracked=1 to
"YMS Milestone" and tracked=0 to "Untracked"; any other or blank type maps
tracked=1 to "Tracked" and tracked=0 to "Untracked"; and an absent tracked
value yields the empty string for every tracking type. -/
theorem tracked_shipments_decision_table (v : Val) :
    ((pyUpper (to_str v) = "ELD" ∨ pyUpper (to_str v) = "APP" ∨ pyUpper (to_str v) = "DIRECT") →
      derive_tracked_shipments (some 1) v = "Tracked" ∧
      derive_tracked_shipments (some 0) v = "Untracked") ∧
    (pyUpper (to_str v) = "UNKNOWN" →
      derive_tracked_shipments (some 1) v = "YMS Milestone" ∧
      derive_tracked_shipments (some 0) v = "Untracked") ∧
    (¬(pyUpper (to_str v) = "ELD" ∨ pyUpper (to_str v) = "APP" ∨ pyUpper (to_str v) = "DIRECT") →
      pyUpper (to_str v) ≠ "UNKNOWN" →
      derive_tracked_shipments (some 1) v = "Tracked" ∧
      derive_tracked_shipments (some 0) v = "Untracked") ∧
    derive_tracked_shipments none v = "" := by
  refine ⟨fun h => ?_, fun h => ?_, fun h1 h2 => ?_, ?_⟩
  · rcases h with h | h | h <;> rw [derive_tracked_shipments, derive_tracked_shipments, h] <;> decide
  · rw [derive_tracked_shipments, derive_tracked_shipments, h]; decide
  · constructor <;>
      · rw [derive_tracked_shipments]
        rw [if_neg h1, if_neg h2]
        decide
  · rw [derive_tracked_shipments]
    split_ifs <;> simp_all

/-- Witness for C1 at concrete inputs: a lower-case "eld" type with
tracked=1 is "Tracked", a mixed-case "Unknown" with tracked=1 is
"YMS Milestone", a blank type with tracked=1 is "Tracked", and an absent
tracked value with type "direct" is blank. -/
theorem tracked_shipments_decision_table_witness :
    derive_tracked_shipments (some 1) (.str "eld") = "Tracked" ∧
    derive_tracked_shipments (some 1) (.str "Unknown") = "YMS Milestone" ∧
    derive_tracked_shipments (some 1) (.str "") = "Tracked" ∧
    derive_tracked_shipments none (.str "direct") = "" :=
  ⟨((tracked_shipments_decision_table (.str "eld")).1 (by decide)).1,
   ((tracked_shipments_decision_table (.str "Unknown")).2.1 (by decide)).1,
   ((tracked_shipments_decision_table (.str "")).2.2.1 (by decide) (by decide)).1,
   (tracked_shipments_decision_table (.str "direct")).2.2.2⟩

/-- Claim C2: when the classification is "Tracked" or "YMS Milestone" the
final Tracking Error equals the literal "Tracked", overwriting any prior
value; any other classification keeps the prior value; and the override is
idempotent. -/
theorem tracking_error_override_spec (ts te : String) :
    (mask_tracked_like ts = true → tracking_error_update ts te = "Tracked") ∧
    (mask_tracked_like ts = false → tracking_error_update ts te = te) ∧
    tracking_error_update ts (tracking_error_update ts te) = tracking_error_update ts te := by
  cases h : mask_tracked_like ts <;> simp [tracking_error_update, h]

/-- Witness for C2: a "YMS Milestone" record's manually-entered error is
overwritten with "Tracked", and an "Untracked" record keeps its prior
value. -/
theorem tracking_error_override_spec_witness :
    tracking_error_update "YMS Milestone" "Carrier offline" = "Tracked" ∧
    tracking_error_update "Untracked" "Carrier offline" = "Carrier offline" :=
  ⟨(tracking_error_override_spec "YMS Milestone" "Carrier offline").1 (by decide),
   (tracking_error_override_spec "Untracked" "Carrier offline").2.1 (by decide)⟩

/-- Claim C3: Shipment ID is the normalized Order Number when that is
non-empty, else the normalized Bill of Lading, and it is the empty string
when both normalize to empty; the two are never combined. -/
theorem shipment_id_spec (o b : Val) :
    (to_str o ≠ "" → derive_shipment_id o b = to_str o) ∧
    (to_str o = "" → derive_shipment_id o b = to_str b) ∧
    (to_str o = "" → to_str b = "" → derive_shipment_id o b = "") := by
  by_cases h : to_str o = "" <;> simp [derive_shipment_id, h]

/-- Witness for C3: a non-empty Order Number wins, an empty one falls back
to the Bill of Lading, and two empty sources leave the field empty. -/
theorem shipment_id_spec_witness :
    derive_shipment_id (.str "ORD9") (.str "BOL1") = "ORD9" ∧
    derive_shipment_id (.str "  ") (.str "BOL1") = "BOL1" ∧
    derive_shipment_id .missing (.str " ") = "" :=
  ⟨(shipment_id_spec (.str "ORD9") (.str "BOL1")).1 (by decide),
   (shipment_id_spec (.str "  ") (.str "BOL1")).2.1 (by decide),
   (shipment_id_spec .missing (.str " ")).2.2 (by decide) (by decide)⟩

/-- Claim C4: the week-label function follows ISO-8601 Monday-start week
numbering with "Week {nn}" two-digit zero padding: 2025-09-30 is "Week 40",
the week boundaries around it fall on Monday (Sep 29 opens week 40, Sunday
Sep 28 is week 39, Sunday Oct 5 closes week 40, Monday Oct 6 opens week
41), the ISO year rolls over on 2025-12-29 to "Week 01", single-digit weeks
are zero-padded, a missing or unparsable input yields the empty string, and
every output is either empty or of the form "Week " followed by a
zero-padded week number. -/
theorem iso_week_label_spec :
    iso_week_label .missing = "" ∧
    iso_week_label (.date ⟨2025, 9, 30⟩) = "Week 40" ∧
    iso_week_label (.date ⟨2025, 9, 29⟩) = "Week 40" ∧
    iso_week_label (.date ⟨2025, 9, 28⟩) = "Week 39" ∧
    iso_week_label (.date ⟨2025, 10, 5⟩) = "Week 40" ∧
    iso_week_label (.date ⟨2025, 10, 6⟩) = "Week 41" ∧
    iso_week_label (.date ⟨2025, 12, 29⟩) = "Week 01" ∧
    iso_week_label (.date ⟨2026, 1, 4⟩) = "Week 01" ∧
    iso_week_label (.str "2025-09-30") = "Week 40" ∧
    iso_week_label (.str "not a date") = "" ∧
    (∀ v, iso_week_label v = "" ∨ ∃ n, iso_week_label v = "Week " ++ pad2 n) := by
  refine ⟨by decide, by decide, by decide, by decide, by decide, by decide, by decide,
    by decide, by decide, by decide, fun v => ?_⟩
  rw [iso_week_label]
  by_cases h : v = .missing
  · simp [h]
  · rw [if_neg h]
    cases hd : pd_to_datetime v
    · exact Or.inl rfl
    · exact Or.inr ⟨isoWeekNum _, rfl⟩

/-- Counterexample to Claim C5 as stated: for the single output record with
a blank root-cause field, a "Week 40" label, and an "Untracked"
classification, the blank-root-cause count is 1 but the Quick checks
summary reports only the numbers 0 (blank Week rows) and 0 (tracked-like
rows), so the blank-root-cause count is not among the reported counts. -/
theorem quick_checks_summary_misses_blank_rca :
    ¬ blank_rca_count
        [[("Week", Val.str "Week 40"), ("Tracked Shipments", Val.str "Untracked"),
          ("Tracking Error", Val.str "")]] ∈
      (quick_checks_summary
        [[("Week", Val.str "Week 40"), ("Tracked Shipments", Val.str "Untracked"),
          ("Tracking Error", Val.str "")]]).map Prod.snd := by
  decide

/-- Claim C5 (amended): after a pipeline run the Quick checks summary
reports the count of records whose Week label is blank and the count of
records classified "Tracked" or "YMS Milestone" (the rows whose Tracking
Error was forced to "Tracked"). -/
theorem quick_checks_summary_reports (out : List Record) :
    blank_week_count out ∈ (quick_checks_summary out).map Prod.snd ∧
    tracked_like_count out ∈ (quick_checks_summary out).map Prod.snd := by
  simp [quick_checks_summary]

/-- In a projected record, every projected column is found with the value
the source record gives it (empty string when absent). -/
theorem find?_project (cols : List String) (r : Record) (c : String) (h : c ∈ cols) :
    (project cols r).find? (fun p => p.1 == c) =
      some (c, getCellD r c (.str "")) := by
  induction cols with
  | nil => cases h
  | cons a t ih =>
    rw [project, List.map_cons]
    by_cases hac : a = c
    · subst hac
      exact List.find?_cons_of_pos _ (by simp)
    · rw [List.find?_cons_of_neg _ (by simp [hac])]
      rcases List.mem_cons.mp h with h' | h'
      · exact absurd h'.symm hac
      · exact ih h'

/-- The column names of a projected record are exactly the projected
column list, in order. -/
theorem project_keys (cols : List String) (r : Record) :
    (project cols r).map Prod.fst = cols := by
  rw [project, List.map_map]
  exact List.map_id cols

/-- Projection onto a fixed column list is idempotent. -/
theorem project_idem (cols : List String) (r : Record) :
    project cols (project cols r) = project cols r := by
  conv_lhs => rw [project]
  conv_rhs => rw [project]
  refine List.map_congr_left fun c hc => ?_
  have h := find?_project cols r c hc
  simp [getCellD, h]

/-- Claim C6: projecting an enriched record onto `desired_cols` yields
exactly the declared ordered column list (columns outside the list are
dropped); each listed column carries the record's value, with an absent
column synthesized as the empty string; and projecting twice equals
projecting once. -/
theorem project_desired_cols_spec (r : Record) :
    (project desired_cols r).map Prod.fst = desired_cols ∧
    project desired_cols (project desired_cols r) = project desired_cols r ∧
    (∀ c, c ∈ desired_cols → getCell (project desired_cols r) c = getCellD r c (.str "")) ∧
    (∀ c, c ∈ desired_cols → r.find? (fun p => p.1 == c) = none →
      getCell (project desired_cols r) c = .str "") := by
  refine ⟨project_keys desired_cols r, project_idem desired_cols r, fun c hc => ?_, fun c hc hn => ?_⟩
  · rw [getCell, find?_project desired_cols r c hc]
  · rw [getCell, find?_project desired_cols r c hc, getCellD, hn]

/-- Witness for C6 at a concrete record holding only an Order Number and a
column outside the schema: the projected keys are the schema, the "Week"
column is synthesized empty, the "Order Number" value is kept, and the
junk column is dropped. -/
theorem project_desired_cols_spec_witness :
    (project desired_cols [("Order Number", Val.str "100"), ("Junk", Val.str "x")]).map Prod.fst
        = desired_cols ∧
    getCell (project desired_cols [("Order Number", Val.str "100"), ("Junk", Val.str "x")]) "Week"
        = .str "" ∧
    getCell (project desired_cols [("Order Number", Val.str "100"), ("Junk", Val.str "x")])
        "Order Number" = .str "100" :=
  ⟨(project_desired_cols_spec [("Order Number", Val.str "100"), ("Junk", Val.str "x")]).1,
   (project_desired_cols_spec [("Order Number", Val.str "100"), ("Junk", Val.str "x")]).2.2.2
     "Week" (by decide) (by decide),
   by
    rw [(project_desired_cols_spec [("Order Number", Val.str "100"), ("Junk", Val.str "x")]).2.2.1
      "Order Number" (by decide)]
    decide⟩

/-- On a cell that is neither missing nor a native boolean, boolean
normalization is exactly the token match on the upper-cased normalized
string. -/
theorem normalize_bool_nonbool (v : Val) (hm : v ≠ .missing) (hb : ∀ b, v ≠ .bool b) :
    normalize_bool_to_01 v =
      (if pyUpper (to_str v) = "TRUE" ∨ pyUpper (to_str v) = "T" ∨ pyUpper (to_str v) = "YES" ∨
          pyUpper (to_str v) = "Y" ∨ pyUpper (to_str v) = "1" then some 1
       else if pyUpper (to_str v) = "FALSE" ∨ pyUpper (to_str v) = "F" ∨
          pyUpper (to_str v) = "NO" ∨ pyUpper (to_str v) = "N" ∨ pyUpper (to_str v) = "0" then
         some 0
       else none) := by
  cases v with
  | missing => exact absurd rfl hm
  | bool b => exact absurd rfl (hb b)
  | int n => rfl
  | float q => rfl
  | str s => rfl
  | date d => rfl

/-- Claim C7: boolean normalization maps a missing input to the absent
marker; a native boolean to its truth value as 1/0; any other value whose
upper-cased normalized string is a truthy token to 1 or a falsy token to 0;
and every other input to the absent marker, never to false. -/
theorem normalize_bool_to_01_spec (v : Val) :
    (v = .missing → normalize_bool_to_01 v = none) ∧
    (∀ b, v = .bool b → normalize_bool_to_01 v = some (if b then 1 else 0)) ∧
    (v ≠ .missing → (∀ b, v ≠ .bool b) →
      ((pyUpper (to_str v) = "TRUE" ∨ pyUpper (to_str v) = "T" ∨ pyUpper (to_str v) = "YES" ∨
          pyUpper (to_str v) = "Y" ∨ pyUpper (to_str v) = "1") →
        normalize_bool_to_01 v = some 1) ∧
      ((pyUpper (to_str v) = "FALSE" ∨ pyUpper (to_str v) = "F" ∨ pyUpper (to_str v) = "NO" ∨
          pyUpper (to_str v) = "N" ∨ pyUpper (to_str v) = "0") →
        normalize_bool_to_01 v = some 0) ∧
      (¬(pyUpper (to_str v) = "TRUE" ∨ pyUpper (to_str v) = "T" ∨ pyUpper (to_str v) = "YES" ∨
          pyUpper (to_str v) = "Y" ∨ pyUpper (to_str v) = "1") →
        ¬(pyUpper (to_str v) = "FALSE" ∨ pyUpper (to_str v) = "F" ∨ pyUpper (to_str v) = "NO" ∨
          pyUpper (to_str v) = "N" ∨ pyUpper (to_str v) = "0") →
        normalize_bool_to_01 v = none)) := by
  refine ⟨fun h => by simp [normalize_bool_to_01, h], fun b h => by simp [normalize_bool_to_01, h],
    fun hm hb => ⟨fun ht => ?_, fun hf => ?_, fun hnt hnf => ?_⟩⟩
  · rw [normalize_bool_nonbool v hm hb, if_pos ht]
  · have hnt : ¬(pyUpper (to_str v) = "TRUE" ∨ pyUpper (to_str v) = "T" ∨
        pyUpper (to_str v) = "YES" ∨ pyUpper (to_str v) = "Y" ∨ pyUpper (to_str v) = "1") := by
      rcases hf with h | h | h | h | h <;> rw [h] <;> decide
    rw [normalize_bool_nonbool v hm hb, if_neg hnt, if_pos hf]
  · rw [normalize_bool_nonbool v hm hb, if_neg hnt, if_neg hnf]

/-- Witness for C7: a padded mixed-case "yes" string is 1, the float 0.0 is
0 via its normalized string "0", and an unrecognized word is absent. -/
theorem normalize_bool_to_01_spec_witness :
    normalize_bool_to_01 (.str " yEs ") = some 1 ∧
    normalize_bool_to_01 (.float 0) = some 0 ∧
    normalize_bool_to_01 (.str "maybe") = none :=
  ⟨((normalize_bool_to_01_spec (.str " yEs ")).2.2 (by decide) (by decide)).1 (by decide),
   ((normalize_bool_to_01_spec (.float 0)).2.2 (by decide) (by decide)).2.1 (by decide),
   ((normalize_bool_to_01_spec (.str "maybe")).2.2 (by decide) (by decide)).2.2
     (by decide) (by decide)⟩

/-- Claim C8: no value normalizer escapes its codomain: on every cell value
the numeric coercion and date normalization return a value or the absent
marker, boolean normalization returns 0, 1 or the absent marker, and on a
missing cell all four normalizers (string normalization included) return
their absent marker; concrete malformed inputs degrade to absent rather
than failing. -/
theorem normalizers_total (v : Val) :
    (to_numeric v = none ∨ ∃ n, to_numeric v = some n) ∧
    (to_mmddyyyy v = none ∨ ∃ d, to_mmddyyyy v = some d) ∧
    (normalize_bool_to_01 v = none ∨ normalize_bool_to_01 v = some 0 ∨
      normalize_bool_to_01 v = some 1) ∧
    (v = .missing →
      to_str v = "" ∧ to_numeric v = none ∧ to_mmddyyyy v = none ∧
        normalize_bool_to_01 v = none) ∧
    to_numeric (.str "12,5") = none ∧
    to_mmddyyyy (.str "not a date") = none ∧
    normalize_bool_to_01 (.str "maybe") = none := by
  refine ⟨?_, ?_, ?_, fun h => by subst h; exact ⟨rfl, rfl, rfl, rfl⟩, by decide, by decide,
    by decide⟩
  · cases h : to_numeric v
    · exact Or.inl rfl
    · exact Or.inr ⟨_, rfl⟩
  · cases h : to_mmddyyyy v
    · exact Or.inl rfl
    · exact Or.inr ⟨_, rfl⟩
  · by_cases hm : v = .missing
    · exact Or.inl (by simp [normalize_bool_to_01, hm])
    · by_cases hb : ∃ b, v = .bool b
      · obtain ⟨b, rfl⟩ := hb
        cases b <;> simp [normalize_bool_to_01]
      · push_neg at hb
        rw [normalize_bool_nonbool v hm hb]
        split_ifs <;> simp

/-- Witness for C8 at the missing cell: every normalizer returns its absent
marker there. -/
theorem normalizers_total_witness :
    to_str .missing = "" ∧ to_numeric .missing = none ∧ to_mmddyyyy .missing = none ∧
      normalize_bool_to_01 .missing = none :=
  (normalizers_total .missing).2.2.2.1 rfl

/-- Claim C9: a non-empty trimmed input string without the "..." separator
is treated whole as the left-hand start timestamp and handed to the
timestamp parser, so a bare single-timestamp string yields its parsed
value; the empty string yields the absent marker. -/
theorem first_datetime_window_no_separator (s : String)
    (hTrim : pyStrip s = s) (hNe : s ≠ "")
    (hSplit : splitOnDots s.data = [s.data]) :
    first_datetime_from_window (.str s) = pd_to_datetime (.str s) ∧
    first_datetime_from_window (.str "") = none := by
  constructor
  · simp only [first_datetime_from_window, to_str]
    rw [hTrim, if_neg hNe, hSplit]
    show pd_to_datetime (.str (pyStrip s)) = pd_to_datetime (.str s)
    rw [hTrim]
  · rfl

/-- Witness for C9: the bare timestamp "2025-11-05 10:00:00.000" is parsed
whole, to November 5 2025, not to the absent marker. -/
theorem first_datetime_window_no_separator_witness :
    first_datetime_from_window (.str "2025-11-05 10:00:00.000")
        = pd_to_datetime (.str "2025-11-05 10:00:00.000") ∧
    pd_to_datetime (.str "2025-11-05 10:00:00.000") = some ⟨2025, 11, 5⟩ :=
  ⟨(first_datetime_window_no_separator "2025-11-05 10:00:00.000" (by decide) (by decide)
      (by decide)).1,
   by decide⟩

/-- Claim C10: string normalization renders the Python booleans as the
integer strings "1" and "0" (bool being a subtype of int), both non-empty,
so an Order Number cell holding False derives Shipment ID "0" and never
falls back to the Bill of Lading. -/
theorem to_str_bool_as_int_spec :
    to_str (.bool true) = "1" ∧ to_str (.bool false) = "0" ∧
    to_str (.bool true) ≠ "" ∧ to_str (.bool false) ≠ "" ∧
    derive_shipment_id (.bool false) (.str "BOL123") = "0" := by
  decide
